import Mathlib

/-!
# Verification of the lay-mitouosc OSC protocol bridge

Shallow embedding of the lay-mitouosc repository (an OSC bridge between a
quantum-gate instruction stream and a UDP transport) and proofs about it.

* `src/message.rs` — the message codec (`Request`/`Response` ↔ `OscMessage`);
* `src/bin/steane-gk-server.rs` — the server's sender, receiver and runner loops;
* `src/lib.rs` — the `MitouOscLayer` layer adapter (`send`, `receive`,
  `make_buffer`, the `Measured` impl) and `host_receiver_loop`.

Rust `i32` is modelled as `Int` (the codec performs no arithmetic on the
values, so overflow is not involved); `f32` is modelled as `Rat` (floats are
carried through the codec unchanged, never computed with); `u32` grid
coordinates are modelled as `Nat` with the `as i32` reinterpreting cast made
explicit (`i32ofU32`). External collaborators (the rosc byte codec, the lay
execution backend, tokio channels and sockets) are modelled at their
interfaces: channel traffic is recorded as lists, the backend is an abstract
state-transformer parameter, and the byte-level codec's outcome is an input.
-/

namespace LayMitouOsc

/-! ## OSC value model (the fragment of rosc the repository uses)

`OscType.int` / `OscType.float` are rosc's exact-variant extractors: they
return `some` only on the matching constructor.  A `Str` constructor stands
in for every other OSC argument type (only used as a "wrong type" value). -/

inductive OscType where
  | Int (i : Int)
  | Float (f : Rat)
  | Str (s : String)
deriving DecidableEq, Repr

def OscType.int : OscType → Option ℤ
  | .Int i => some i
  | _ => none

def OscType.float : OscType → Option ℚ
  | .Float f => some f
  | _ => none

structure OscMessage where
  addr : String
  args : List OscType
deriving DecidableEq, Repr

/-- rosc `OscPacket`: a message or a bundle (timetag plus nested packets). -/
inductive OscPacket where
  | Message (msg : OscMessage)
  | Bundle (timetag : Nat × Nat) (content : List OscPacket)

/-! ## Message codec (`src/message.rs`) -/

/-- `MessageError` from `src/message.rs`. -/
inductive MessageError where
  | InvalidAddr (addr : String)
  | InvalidArgs
deriving DecidableEq, Repr

/-- The `thiserror` display strings of `MessageError`
(`"Invalid address `{0}`"`, `"Invalid arguments"`). -/
def MessageError.toMessage : MessageError → String
  | .InvalidAddr a => "Invalid address `" ++ a ++ "`"
  | .InvalidArgs => "Invalid arguments"

/-- `Request` from `src/message.rs`. -/
inductive Request where
  | InitZero (n1 n2 : Int)
  | X (n1 n2 : Int)
  | Y (n1 n2 : Int)
  | Z (n1 n2 : Int)
  | H (n1 n2 : Int)
  | S (n1 n2 : Int)
  | Sdg (n1 n2 : Int)
  | T (n1 n2 : Int)
  | Tdg (n1 n2 : Int)
  | CX (n1 n2 n3 n4 : Int)
  | Mz (n1 n2 : Int)
deriving DecidableEq, Repr

/-- `Response` from `src/message.rs`. -/
inductive Response where
  | Mz (n1 : Int) (f1 : Rat)
deriving DecidableEq, Repr

/-- The argument pre-pass of `Request::try_from`:
`args.into_iter().map(|x| x.int().ok_or(InvalidArgs)).collect::<Result<Vec<_>,_>>()`. -/
def collectInts : List OscType → Except MessageError (List Int)
  | [] => .ok []
  | x :: xs =>
    match x.int with
    | some i => (collectInts xs).map (i :: ·)
    | none => .error .InvalidArgs

/-- The local closure `get` of `Request::try_from`:
`|n| args.get(n).map(|x| *x).ok_or(InvalidArgs)`. -/
def geti (args : List Int) (n : Nat) : Except MessageError Int :=
  match args[n]? with
  | some x => .ok x
  | none => .error .InvalidArgs

/-- `impl TryFrom<OscMessage> for Request` (`src/message.rs` lines 29-53).
Rust's `?` is `Except.bind`. -/
def Request.tryFrom (msg : OscMessage) : Except MessageError Request :=
  match collectInts msg.args with
  | .error e => .error e
  | .ok args =>
    match msg.addr with
    | "/InitZero" => (geti args 0).bind fun a => (geti args 1).bind fun b => .ok (.InitZero a b)
    | "/X" => (geti args 0).bind fun a => (geti args 1).bind fun b => .ok (.X a b)
    | "/Y" => (geti args 0).bind fun a => (geti args 1).bind fun b => .ok (.Y a b)
    | "/Z" => (geti args 0).bind fun a => (geti args 1).bind fun b => .ok (.Z a b)
    | "/H" => (geti args 0).bind fun a => (geti args 1).bind fun b => .ok (.H a b)
    | "/S" => (geti args 0).bind fun a => (geti args 1).bind fun b => .ok (.S a b)
    | "/Sdg" => (geti args 0).bind fun a => (geti args 1).bind fun b => .ok (.Sdg a b)
    | "/T" => (geti args 0).bind fun a => (geti args 1).bind fun b => .ok (.T a b)
    | "/Tdg" => (geti args 0).bind fun a => (geti args 1).bind fun b => .ok (.Tdg a b)
    | "/CX" => (geti args 0).bind fun a => (geti args 1).bind fun b =>
               (geti args 2).bind fun c => (geti args 3).bind fun d => .ok (.CX a b c d)
    | "/Mz" => (geti args 0).bind fun a => (geti args 1).bind fun b => .ok (.Mz a b)
    | _ => .error (.InvalidAddr msg.addr)

/-- `impl From<&Request> for OscMessage` (`src/message.rs` lines 55-71). -/
def OscMessage.fromRequest : Request → OscMessage
  | .InitZero n1 n2 => ⟨"/InitZero", [.Int n1, .Int n2]⟩
  | .X n1 n2 => ⟨"/X", [.Int n1, .Int n2]⟩
  | .Y n1 n2 => ⟨"/Y", [.Int n1, .Int n2]⟩
  | .Z n1 n2 => ⟨"/Z", [.Int n1, .Int n2]⟩
  | .H n1 n2 => ⟨"/H", [.Int n1, .Int n2]⟩
  | .S n1 n2 => ⟨"/S", [.Int n1, .Int n2]⟩
  | .Sdg n1 n2 => ⟨"/Sdg", [.Int n1, .Int n2]⟩
  | .T n1 n2 => ⟨"/T", [.Int n1, .Int n2]⟩
  | .Tdg n1 n2 => ⟨"/Tdg", [.Int n1, .Int n2]⟩
  | .CX n1 n2 n3 n4 => ⟨"/CX", [.Int n1, .Int n2, .Int n3, .Int n4]⟩
  | .Mz n1 n2 => ⟨"/Mz", [.Int n1, .Int n2]⟩

/-- `Option::ok_or(InvalidArgs)`. -/
def okOrInvalid {α : Type} : Option α → Except MessageError α
  | some x => .ok x
  | none => .error .InvalidArgs

/-- `impl TryFrom<OscMessage> for Response` (`src/message.rs` lines 78-89):
`args.get(0).and_then(int)` and `args.get(1).and_then(float)`. -/
def Response.tryFrom (msg : OscMessage) : Except MessageError Response :=
  match msg.addr with
  | "/Mz" =>
    (okOrInvalid (msg.args[0]?.bind OscType.int)).bind fun n =>
    (okOrInvalid (msg.args[1]?.bind OscType.float)).bind fun f =>
    .ok (.Mz n f)
  | _ => .error (.InvalidAddr msg.addr)

/-- `impl From<&Response> for OscMessage` (`src/message.rs` lines 91-97). -/
def OscMessage.fromResponse : Response → OscMessage
  | .Mz n1 f1 => ⟨"/Mz", [.Int n1, .Float f1]⟩

/-- The per-variant argument count of the `Request` wire table (`/CX` takes
four ints, every other tag two). -/
def reqArity : String → Option Nat
  | "/InitZero" => some 2
  | "/X" => some 2
  | "/Y" => some 2
  | "/Z" => some 2
  | "/H" => some 2
  | "/S" => some 2
  | "/Sdg" => some 2
  | "/T" => some 2
  | "/Tdg" => some 2
  | "/CX" => some 4
  | "/Mz" => some 2
  | _ => none

/-! ## Envelope unwrapping

The packet-to-message step shared verbatim by `receiver_loop`
(`src/bin/steane-gk-server.rs` lines 63-76), `host_receiver_loop`
(`src/lib.rs` lines 97-110) and `receive_response` (`src/lib.rs` lines 60-73):
a bare message is accepted (after a log warning); a bundle must contain
exactly one packet, which must itself be a message (`bundle.content.pop()`
takes the last and only element). -/

def unwrapEnvelope : OscPacket → Except String OscMessage
  | .Message msg => .ok msg
  | .Bundle _ content =>
    if content.length = 0 then .error "Received empty bundle."
    else if ¬ content.length = 1 then .error "Multiple messages in same bundle."
    else
      match content.getLast? with
      | some (.Message msg) => .ok msg
      | some (.Bundle _ _) => .error "Received nested bundle."
      | none => .error "pop on empty vec"

/-! ## Receiver loop (`src/bin/steane-gk-server.rs` lines 47-80)

One iteration of the loop body after the socket read, as a function of the
outcome of the byte-level decoder `rosc::decoder::decode` (external codec,
so its result is the input).  A byte-decode failure is logged and the loop
`continue`s; the envelope `ensure!`/`bail!` failures and a `Request::try_from`
failure pass through `?` and so return the error from `receiver_loop`,
terminating the loop; on success the request is forwarded on the channel. -/

inductive ReceiverStepResult where
  | dropAndContinue
  | forward (req : Request)
  | fatal (e : String)
deriving DecidableEq, Repr

def receiverStep (decoded : Except String OscPacket) : ReceiverStepResult :=
  match decoded with
  | .error _ => .dropAndContinue
  | .ok packet =>
    match unwrapEnvelope packet with
    | .error e => .fatal e
    | .ok msg =>
      match Request.tryFrom msg with
      | .error e => .fatal e.toMessage
      | .ok req => .forward req

/-! ## Runner loop (`src/bin/steane-gk-server.rs` lines 82-119)

The runner is generic over the backend layer `L`; the backend's operation
vector, buffer and `send_receive` are external (the lay crate), modelled as:
an operation list (`GateOp`), a result buffer as a function from slots to
bits, and an abstract executor `exec` mapping an operation list and a buffer
to the filled buffer.  One loop iteration handles one `Request`; the
`_ => unimplemented!()` arm is a panic. -/

inductive GateOp (Q S : Type) where
  | x (q : Q)
  | y (q : Q)
  | z (q : Q)
  | h (q : Q)
  | cx (c t : Q)
  | measure (q : Q) (s : S)

structure RunnerState (Q S : Type) where
  ops : List (GateOp Q S)
  buf : S → Bool

inductive RunnerStepResult (Q S : Type) where
  | ok (st : RunnerState Q S) (responses : List Response)
  | unimplementedPanic

def runnerStep {Q S : Type} (exec : List (GateOp Q S) → (S → Bool) → (S → Bool))
    (castQ : Int → Int → Q) (castS : Int → Int → S)
    (st : RunnerState Q S) : Request → RunnerStepResult Q S
  | .X x y => .ok ⟨st.ops ++ [.x (castQ x y)], st.buf⟩ []
  | .Y x y => .ok ⟨st.ops ++ [.y (castQ x y)], st.buf⟩ []
  | .Z x y => .ok ⟨st.ops ++ [.z (castQ x y)], st.buf⟩ []
  | .H x y => .ok ⟨st.ops ++ [.h (castQ x y)], st.buf⟩ []
  | .CX x1 y1 x2 y2 => .ok ⟨st.ops ++ [.cx (castQ x1 y1) (castQ x2 y2)], st.buf⟩ []
  | .Mz x y =>
    let ops2 := st.ops ++ [.measure (castQ x y) (castS x y)]
    let buf2 := exec ops2 st.buf
    let bit := buf2 (castS x y)
    .ok ⟨[], buf2⟩ [.Mz 0 (if bit then 1 else 0)]
  | _ => .unimplementedPanic

/-! ## Layer adapter (`src/lib.rs` lines 116-226)

`OpId` models the distinct `opid` constants of the lay crate that the
adapter matches on; `LayOpArgs` models `lay::operations::OpArgs` in the
shapes the adapter's `match` distinguishes.  Qubits and slots are `(u32,
u32)` grid coordinates, modelled as `Nat × Nat`; the `as i32` casts are
`i32ofU32`. -/

inductive OpId where
  | INIT
  | X
  | Y
  | Z
  | H
  | S
  | SDG
  | T
  | TDG
  | CX
  | MEAS
deriving DecidableEq, Repr

inductive LayOpArgs where
  | Empty (id : OpId)
  | Q (id : OpId) (q : Nat × Nat)
  | QS (id : OpId) (q : Nat × Nat) (s : Nat × Nat)
  | QQ (id : OpId) (q1 q2 : Nat × Nat)
deriving DecidableEq, Repr

/-- Rust's `as i32` applied to a `u32` value: reinterpret modulo `2^32` into
`[-2^31, 2^31)`. -/
def i32ofU32 (n : Nat) : Int :=
  if n % 2 ^ 32 < 2 ^ 31 then ((n % 2 ^ 32 : Nat) : Int)
  else ((n % 2 ^ 32 : Nat) : Int) - 2 ^ 32

/-- The channel messages produced for one operation by `MitouOscLayer::send`
(`src/lib.rs` lines 131-188), or the `bail!`/`ensure!` error that aborts it.
The Rust arms in order: `Empty(INIT)` sends `InitZero` for the whole grid
(`y` outer, `x` inner, bounds cast `as i32`); `Q(id, q)` matches
X/Y/Z/S/SDG/T/TDG only (anything else, including `opid::H`, hits
`bail!("Unexpected single qubit gate")`); `QS(MEAS, q, s)` requires `q == s`;
`QQ(CX, c, t)`; every unguarded shape hits `bail!("Unexpected operation")`. -/
def sendOp (size : Nat × Nat) : LayOpArgs → Except String (List (Option Request))
  | .Empty id =>
    if id = .INIT then
      .ok ((List.range (i32ofU32 size.2).toNat).flatMap fun y =>
           (List.range (i32ofU32 size.1).toNat).map fun x =>
           some (Request.InitZero (Int.ofNat x) (Int.ofNat y)))
    else .error "Unexpected operation"
  | .Q id q =>
    match id with
    | .X => .ok [some (.X (i32ofU32 q.1) (i32ofU32 q.2))]
    | .Y => .ok [some (.Y (i32ofU32 q.1) (i32ofU32 q.2))]
    | .Z => .ok [some (.Z (i32ofU32 q.1) (i32ofU32 q.2))]
    | .S => .ok [some (.S (i32ofU32 q.1) (i32ofU32 q.2))]
    | .SDG => .ok [some (.Sdg (i32ofU32 q.1) (i32ofU32 q.2))]
    | .T => .ok [some (.T (i32ofU32 q.1) (i32ofU32 q.2))]
    | .TDG => .ok [some (.Tdg (i32ofU32 q.1) (i32ofU32 q.2))]
    | _ => .error "Unexpected single qubit gate"
  | .QS id q s =>
    if id = .MEAS then
      if q = s then .ok [some (.Mz (i32ofU32 q.1) (i32ofU32 q.2))]
      else .error "Qubit and slot must be same."
    else .error "Unexpected operation"
  | .QQ id c t =>
    if id = .CX then
      .ok [some (.CX (i32ofU32 c.1) (i32ofU32 c.2) (i32ofU32 t.1) (i32ofU32 t.2))]
    else .error "Unexpected operation"

/-- `MitouOscLayer::send` over a batch: the full trace of channel messages
(`self.sender.blocking_send(...)`), ending in the `None` terminator sent
after the loop; an erroring operation aborts the whole call before the
terminator. -/
def send (size : Nat × Nat) : List LayOpArgs → Except String (List (Option Request))
  | [] => .ok [none]
  | op :: rest =>
    match sendOp size op with
    | .error e => .error e
    | .ok msgs =>
      match send size rest with
      | .error e => .error e
      | .ok more => .ok (msgs ++ more)

/-! ## Sender loop (`src/bin/steane-gk-server.rs` lines 31-44)

`sender_loop` pulls responses from the channel until it is closed, encoding
and transmitting each; once `recv` yields no more messages the `while let`
ends and the function hits `bail!("sender_loop: unexpected finished")`.
The channel's lifetime is the finite list of responses delivered before
closure; the trace of encoded messages is returned with the final result. -/

def senderLoopTrace : List Response → List OscMessage × Except String Unit
  | [] => ([], .error "sender_loop: unexpected finished")
  | msg :: rest =>
    (OscMessage.fromResponse msg :: (senderLoopTrace rest).1, (senderLoopTrace rest).2)

/-! ## Measurement buffer (`src/lib.rs` lines 190-226) -/

/-- `MitouOscBuffer(Vec<bool>, usize)`: the bit vector and the grid width. -/
structure MitouOscBuffer where
  data : List Bool
  width : Nat
deriving DecidableEq, Repr

/-- `MitouOscLayer::make_buffer`: `vec![false; w * h]` with width `w`
(`size = (w, h)`). -/
def make_buffer (size : Nat × Nat) : MitouOscBuffer :=
  ⟨List.replicate (size.1 * size.2) false, size.1⟩

/-- The write performed by `MitouOscLayer::receive` for one channel item
`((x, y), m)`: `(buf.0)[x + y * buf.1] = m`. -/
def receiveWrite (buf : MitouOscBuffer) (x y : Nat) (m : Bool) : MitouOscBuffer :=
  ⟨buf.data.set (x + y * buf.width) m, buf.width⟩

/-- `impl Measured for MitouOscBuffer`: `get((x, y)) = (self.0)[self.1 * y + x]`. -/
def MitouOscBuffer.get (buf : MitouOscBuffer) (pos : Nat × Nat) : Bool :=
  buf.data.getD (buf.width * pos.2 + pos.1) false

/-! ## Helper lemmas -/

theorem collectInts_ok_length (l : List OscType) (r : List Int)
    (h : collectInts l = .ok r) : r.length = l.length := by
  induction l generalizing r with
  | nil =>
    simp only [collectInts] at h
    cases h
    rfl
  | cons x xs ih =>
    simp only [collectInts] at h
    cases hx : x.int with
    | none => rw [hx] at h; cases h
    | some i =>
      rw [hx] at h
      cases hr : collectInts xs with
      | error e => rw [hr] at h; cases h
      | ok r2 =>
        rw [hr] at h
        cases h
        simp [ih r2 hr]

theorem collectInts_error_invalid (l : List OscType) (e : MessageError)
    (h : collectInts l = .error e) : e = .InvalidArgs := by
  induction l generalizing e with
  | nil => simp only [collectInts] at h; cases h
  | cons x xs ih =>
    simp only [collectInts] at h
    cases hx : x.int with
    | none => rw [hx] at h; cases h; rfl
    | some i =>
      rw [hx] at h
      cases hr : collectInts xs with
      | error e2 => rw [hr] at h; cases h; exact ih _ hr
      | ok r2 => rw [hr] at h; cases h

theorem geti_chain2_short (f : Int → Int → Request) (l : List Int) (h : l.length < 2) :
    ((geti l 0).bind fun a => (geti l 1).bind fun b =>
      (Except.ok (f a b) : Except MessageError Request)) = .error .InvalidArgs := by
  match l with
  | [] => rfl
  | [a] => rfl
  | a :: b :: t => exact absurd h (Nat.not_lt.mpr (Nat.le_add_left 2 t.length))

theorem geti_chain4_short (f : Int → Int → Int → Int → Request) (l : List Int)
    (h : l.length < 4) :
    ((geti l 0).bind fun a => (geti l 1).bind fun b =>
     (geti l 2).bind fun c => (geti l 3).bind fun d =>
      (Except.ok (f a b c d) : Except MessageError Request)) = .error .InvalidArgs := by
  match l with
  | [] => rfl
  | [a] => rfl
  | [a, b] => rfl
  | [a, b, c] => rfl
  | a :: b :: c :: d :: t => exact absurd h (Nat.not_lt.mpr (Nat.le_add_left 4 t.length))

/-! ## C1: encode/decode round trip -/

/-- C1: for every `Request` R, `Request::try_from(OscMessage::from(&R))`
yields exactly `Ok(R)`; likewise for every `Response` `Mz(n, f)` whose value
field is 0.0 or 1.0, `Response::try_from(OscMessage::from(&Q))` is `Ok(Q)`. -/
theorem c1_roundtrip (R : Request) (n : Int) (f : Rat) (_hf : f = 0 ∨ f = 1) :
    Request.tryFrom (OscMessage.fromRequest R) = .ok R ∧
    Response.tryFrom (OscMessage.fromResponse (.Mz n f)) = .ok (.Mz n f) := by
  constructor
  · cases R <;> rfl
  · rfl

/-- C1 witness: the round trip evaluated at `Request::X(3, 4)` and
`Response::Mz(0, 1.0)`. -/
theorem c1_roundtrip_witness :
    ((1 : Rat) = 0 ∨ (1 : Rat) = 1) ∧
    Request.tryFrom (OscMessage.fromRequest (.X 3 4)) = .ok (.X 3 4) ∧
    Response.tryFrom (OscMessage.fromResponse (.Mz 0 1)) = .ok (.Mz 0 1) :=
  ⟨Or.inr rfl, c1_roundtrip (.X 3 4) 0 1 (Or.inr rfl)⟩

/-! ## C2: arity mismatches -/

/-- C2 counterexample: the claim demands that a message with more arguments
than the variant's arity be rejected, but `Request::try_from` reads only the
first `n` arguments — `/X` with three int arguments decodes to `Ok(X(0, 0))`,
not an error. -/
theorem c2_counterexample :
    Request.tryFrom ⟨"/X", [.Int 0, .Int 0, .Int 0]⟩ = .ok (.X 0 0) := rfl

/-- C2 amended: for every `OscMessage` whose address tag names a `Request`
variant but with FEWER arguments than that variant's listed arity,
`Request::try_from` returns the `InvalidArgs` decode error (and, being total,
does not panic); extra trailing arguments are not rejected. -/
theorem c2_arity_short (msg : OscMessage) (n : Nat)
    (ha : reqArity msg.addr = some n) (hlen : msg.args.length < n) :
    Request.tryFrom msg = .error .InvalidArgs := by
  obtain ⟨addr, args⟩ := msg
  simp only at ha hlen
  rw [Request.tryFrom]
  cases hc : collectInts args with
  | error e => simp only [collectInts_error_invalid args e hc]
  | ok l =>
    have hl : l.length = args.length := collectInts_ok_length args l hc
    simp only [reqArity] at ha
    split at ha <;>
      first
        | (cases ha
           exact geti_chain2_short _ l (by omega))
        | (cases ha
           exact geti_chain4_short _ l (by omega))
        | cases ha

/-- C2 witness: `/X` with no arguments (arity 2) is an `InvalidArgs` error. -/
theorem c2_arity_short_witness :
    reqArity "/X" = some 2 ∧ (0 : Nat) < 2 ∧
    Request.tryFrom ⟨"/X", []⟩ = .error .InvalidArgs :=
  ⟨rfl, by omega, c2_arity_short ⟨"/X", []⟩ 2 rfl (by simp)⟩

/-! ## C3: envelope-unwrapping rules -/

/-- C3: the envelope-unwrapping step of the receiver loops fails with the
"empty" error on a bundle with zero messages, with the "multiple" error on a
bundle with two or more, with the "nested" error when the single element is
itself a bundle, and accepts a bare message unchanged. -/
theorem c3_envelope (tt tt2 : Nat × Nat) (c c2 : List OscPacket) (m : OscMessage)
    (hc : 2 ≤ c.length) :
    unwrapEnvelope (.Bundle tt []) = .error "Received empty bundle." ∧
    unwrapEnvelope (.Bundle tt c) = .error "Multiple messages in same bundle." ∧
    unwrapEnvelope (.Bundle tt [.Bundle tt2 c2]) = .error "Received nested bundle." ∧
    unwrapEnvelope (.Message m) = .ok m := by
  refine ⟨rfl, ?_, rfl, rfl⟩
  have h0 : ¬ c.length = 0 := by omega
  have h1 : ¬ c.length = 1 := by omega
  simp [unwrapEnvelope, h0, h1]

/-- C3 witness: evaluated on a two-message bundle (and the other three packet
shapes at concrete values). -/
theorem c3_envelope_witness :
    2 ≤ [OscPacket.Message ⟨"/X", []⟩, OscPacket.Message ⟨"/Y", []⟩].length ∧
    unwrapEnvelope (.Bundle (0, 0) []) = .error "Received empty bundle." ∧
    unwrapEnvelope (.Bundle (0, 0) [.Message ⟨"/X", []⟩, .Message ⟨"/Y", []⟩]) =
      .error "Multiple messages in same bundle." ∧
    unwrapEnvelope (.Bundle (0, 0) [.Bundle (0, 0) []]) =
      .error "Received nested bundle." ∧
    unwrapEnvelope (.Message ⟨"/X", []⟩) = .ok ⟨"/X", []⟩ :=
  ⟨by simp, c3_envelope (0, 0) (0, 0) [.Message ⟨"/X", []⟩, .Message ⟨"/Y", []⟩] []
    ⟨"/X", []⟩ (by simp)⟩

/-! ## C4: receiver-loop failure handling -/

/-- C4 counterexample: the claim says every malformed or unrecognized packet
(including an unknown address tag such as `/Foo`) is logged, dropped, and the
loop continues; but `Request::try_from`'s error passes through `?`, so a
well-formed OSC message with the unknown tag `/Foo` terminates `receiver_loop`
with a fatal error instead of continuing. -/
theorem c4_counterexample :
    receiverStep (.ok (.Message ⟨"/Foo", []⟩)) = .fatal "Invalid address `/Foo`" ∧
    receiverStep (.ok (.Message ⟨"/Foo", []⟩)) ≠ .dropAndContinue := by
  constructor
  · rfl
  · intro h
    exact ReceiverStepResult.noConfusion h

/-- C4 amended: only a byte-level OSC decode failure is logged, dropped and
continued; a packet that decodes but has a bad envelope, and a message that
fails `Request::try_from` (unknown address tag or bad arguments), each
terminate the receiver loop with the corresponding fatal error, while a
successfully decoded request is forwarded on the channel. -/
theorem c4_receiver_step (e : String) (p : OscPacket) :
    receiverStep (.error e) = .dropAndContinue ∧
    (∀ s, unwrapEnvelope p = .error s → receiverStep (.ok p) = .fatal s) ∧
    (∀ m me, unwrapEnvelope p = .ok m → Request.tryFrom m = .error me →
      receiverStep (.ok p) = .fatal me.toMessage) ∧
    (∀ m r, unwrapEnvelope p = .ok m → Request.tryFrom m = .ok r →
      receiverStep (.ok p) = .forward r) := by
  refine ⟨rfl, ?_, ?_, ?_⟩
  · intro s hs
    simp [receiverStep, hs]
  · intro m me hm hme
    simp [receiverStep, hm, hme]
  · intro m r hm hr
    simp [receiverStep, hm, hr]

/-- C4 witness: the amended behaviour evaluated on a byte-decode failure and
on an empty bundle. -/
theorem c4_receiver_step_witness :
    receiverStep (.error "OSC Error") = .dropAndContinue ∧
    unwrapEnvelope (.Bundle (0, 0) []) = .error "Received empty bundle." ∧
    receiverStep (.ok (.Bundle (0, 0) [])) = .fatal "Received empty bundle." :=
  ⟨(c4_receiver_step "OSC Error" (.Bundle (0, 0) [])).1, rfl,
   (c4_receiver_step "OSC Error" (.Bundle (0, 0) [])).2.1 _ rfl⟩

/-! ## C5: runner translation of non-measurement gates -/

/-- C5 counterexample: the claim says every non-measurement gate request,
including S, is translated into an apply call without failing or panicking;
but `runner_loop`'s match has no arm for `Request::S` (nor Sdg/T/Tdg), so an
S request falls into `_ => unimplemented!()` and panics.  Evaluated at a
concrete backend (identity executor over `Int × Int` qubits and slots). -/
theorem c5_counterexample :
    runnerStep (Q := Int × Int) (S := Int × Int) (fun _ b => b)
      (fun x y => (x, y)) (fun x y => (x, y)) ⟨[], fun _ => false⟩
      (.S 0 0) = .unimplementedPanic := rfl

/-- C5 amended: the runner translates each of X, Y, Z, H and controlled-X 1:1
into an apply call appended to the backend's pending operation buffer at the
requested (cast) coordinate(s), producing no response and no failure; but S,
S-dagger, T and T-dagger requests fall into the `unimplemented!()` arm and
panic. -/
theorem c5_runner_gates {Q S : Type}
    (exec : List (GateOp Q S) → (S → Bool) → (S → Bool))
    (castQ : Int → Int → Q) (castS : Int → Int → S)
    (st : RunnerState Q S) (x y x2 y2 : Int) :
    runnerStep exec castQ castS st (.X x y) =
      .ok ⟨st.ops ++ [.x (castQ x y)], st.buf⟩ [] ∧
    runnerStep exec castQ castS st (.Y x y) =
      .ok ⟨st.ops ++ [.y (castQ x y)], st.buf⟩ [] ∧
    runnerStep exec castQ castS st (.Z x y) =
      .ok ⟨st.ops ++ [.z (castQ x y)], st.buf⟩ [] ∧
    runnerStep exec castQ castS st (.H x y) =
      .ok ⟨st.ops ++ [.h (castQ x y)], st.buf⟩ [] ∧
    runnerStep exec castQ castS st (.CX x y x2 y2) =
      .ok ⟨st.ops ++ [.cx (castQ x y) (castQ x2 y2)], st.buf⟩ [] ∧
    runnerStep exec castQ castS st (.S x y) = .unimplementedPanic ∧
    runnerStep exec castQ castS st (.Sdg x y) = .unimplementedPanic ∧
    runnerStep exec castQ castS st (.T x y) = .unimplementedPanic ∧
    runnerStep exec castQ castS st (.Tdg x y) = .unimplementedPanic :=
  ⟨rfl, rfl, rfl, rfl, rfl, rfl, rfl, rfl, rfl⟩

/-! ## C6: runner measurement round trip -/

/-- C6: on a measurement request `Mz(x, y)` the runner appends a measure
operation for the cast coordinate into the cast slot, synchronously executes
the accumulated operation buffer against the backend, reads the single
resulting bit for that slot, emits exactly one response `Mz(0, value)` with
value 0.0 or 1.0 matching the bit, and clears the operation buffer. -/
theorem c6_runner_measure {Q S : Type}
    (exec : List (GateOp Q S) → (S → Bool) → (S → Bool))
    (castQ : Int → Int → Q) (castS : Int → Int → S)
    (st : RunnerState Q S) (x y : Int) :
    runnerStep exec castQ castS st (.Mz x y) =
      .ok ⟨[], exec (st.ops ++ [.measure (castQ x y) (castS x y)]) st.buf⟩
        [.Mz 0 (if exec (st.ops ++ [.measure (castQ x y) (castS x y)]) st.buf
                     (castS x y) then 1 else 0)] ∧
    ((if exec (st.ops ++ [.measure (castQ x y) (castS x y)]) st.buf (castS x y)
        then (1 : Rat) else 0) = 0 ∨
     (if exec (st.ops ++ [.measure (castQ x y) (castS x y)]) st.buf (castS x y)
        then (1 : Rat) else 0) = 1) := by
  refine ⟨rfl, ?_⟩
  cases exec (st.ops ++ [.measure (castQ x y) (castS x y)]) st.buf (castS x y) with
  | false => exact Or.inl rfl
  | true => exact Or.inr rfl

/-! ## C7: the layer adapter's `send` rejects Hadamard -/

/-- C7: `MitouOscLayer::send` is claimed to translate every gate of the
protocol table including Hadamard, and the crate itself declares
`impl HGate for MitouOscLayer`; but the single-qubit match in `send` has arms
only for X/Y/Z/S/SDG/T/TDG, so `OpArgs::Q(opid::H, (0, 0))` falls into
`bail!("Unexpected single qubit gate")`: the call fails and nothing (not even
the terminator) is sent. -/
theorem c7_send_h_fails :
    sendOp (2, 2) (.Q .H (0, 0)) = .error "Unexpected single qubit gate" ∧
    send (2, 2) [.Q .H (0, 0)] = .error "Unexpected single qubit gate" :=
  ⟨rfl, rfl⟩

/-! ## C8: measure with coordinate ≠ slot is a contract error -/

/-- C8: a measurement operation whose coordinate differs from its slot fails
the `ensure!(q == s)` contract check in `MitouOscLayer::send`: the result is
the fatal error "Qubit and slot must be same.", and no request (and no
terminator) is forwarded for it. -/
theorem c8_measure_slot (size : Nat × Nat) (q s : Nat × Nat)
    (rest : List LayOpArgs) (h : q ≠ s) :
    sendOp size (.QS .MEAS q s) = .error "Qubit and slot must be same." ∧
    send size (.QS .MEAS q s :: rest) = .error "Qubit and slot must be same." := by
  have h1 : sendOp size (.QS .MEAS q s) = .error "Qubit and slot must be same." := by
    simp [sendOp, h]
  refine ⟨h1, ?_⟩
  rw [send, h1]

/-- C8 witness: a measure op pairing coordinate (0, 0) with slot (0, 1). -/
theorem c8_measure_slot_witness :
    ((0, 0) : Nat × Nat) ≠ (0, 1) ∧
    sendOp (2, 2) (.QS .MEAS (0, 0) (0, 1)) = .error "Qubit and slot must be same." ∧
    send (2, 2) [.QS .MEAS (0, 0) (0, 1)] = .error "Qubit and slot must be same." :=
  ⟨by decide, c8_measure_slot (2, 2) (0, 0) (0, 1) [] (by decide)⟩

/-! ## C9: sender loop terminates fatally on channel closure -/

/-- C9: however many responses the inbound channel delivers before closing,
once `recv` yields no more messages `sender_loop` returns the fatal
"unexpected finished" error — it never returns Ok (and, the trace function
being total, it does not hang). -/
theorem c9_sender_loop_fatal (msgs : List Response) :
    (senderLoopTrace msgs).2 = .error "sender_loop: unexpected finished" ∧
    (senderLoopTrace msgs).2 ≠ .ok () := by
  induction msgs with
  | nil => exact ⟨rfl, fun h => Except.noConfusion h⟩
  | cons m rest ih => exact ih

/-! ## C10: measurement buffer indexing -/

/-- C10: for a buffer of width `w` and size `w * h` (as produced by
`make_buffer` and preserved by writes), `receive`'s write for an in-range
coordinate (x, y) lands exactly where `Measured::get((x, y))` reads (both use
linear index `y * w + x`), and immediately after `make_buffer` every in-range
`get` returns false. -/
theorem c10_buffer_roundtrip (w h x y : Nat) (m : Bool) (b : MitouOscBuffer)
    (hx : x < w) (hy : y < h) (hw : b.width = w) (hl : b.data.length = w * h) :
    (receiveWrite b x y m).get (x, y) = m ∧
    (make_buffer (w, h)).get (x, y) = false := by
  constructor
  · show (b.data.set (x + y * b.width) m).getD (b.width * y + x) false = m
    rw [hw]
    have hidx : w * y + x = x + y * w := by ring
    have hlt : x + y * w < b.data.length := by
      rw [hl]
      calc x + y * w < w + y * w := by omega
        _ = (y + 1) * w := by ring
        _ ≤ h * w := Nat.mul_le_mul_right w hy
        _ = w * h := Nat.mul_comm h w
    rw [hidx]
    rw [List.getD_eq_getElem?_getD, List.getElem?_set_self (by simpa using hlt)]
    rfl
  · show (List.replicate (w * h) false).getD (w * y + x) false = false
    rw [List.getD_eq_getElem?_getD, List.getElem?_replicate]
    split <;> rfl

/-- C10 witness: a 2×2 buffer, writing bit `true` at (1, 1). -/
theorem c10_buffer_roundtrip_witness :
    (1 : Nat) < 2 ∧ (1 : Nat) < 2 ∧
    (receiveWrite (make_buffer (2, 2)) 1 1 true).get (1, 1) = true ∧
    (make_buffer (2, 2)).get (1, 1) = false :=
  ⟨by omega, by omega,
   c10_buffer_roundtrip 2 2 1 1 true (make_buffer (2, 2)) (by omega) (by omega)
     rfl (by simp [make_buffer])⟩

end LayMitouOsc
